import Mathlib

/-!
Shallow embedding of `src/api/index.py` (CSV_XLS_DATA_ANALYZER), the Flask
statistical-analysis API: value coercion, the tabular cleaner, the
correlation / OLS / random-forest / time-series endpoints.

Conventions of the embedding:
* JSON scalar values are `PyVal` (numbers as exact `ℚ`, strings, null).
  Library floating-point numerics are modelled over `ℚ`; IEEE special values
  that the code can actually produce (nan, ±inf from zero divisions in
  statsmodels metrics) are modelled by `PFloat`.
* Python exceptions are `PyExn`; each endpoint returns `Except ApiErr _`
  where `ApiErr.badRequest` is a structured 400 response and
  `ApiErr.internal` is the blanket `except Exception` 500 response.
* Timestamps are integer nanoseconds since the Unix epoch, exactly as in
  pandas (int64 nanoseconds).
-/

namespace CSVA

/-- Scalar values appearing in a decoded JSON table: a number (exact
rational, standing for the wire float), a string, or null/missing. -/
inductive PyVal
  | num (q : ℚ)
  | str (s : String)
  | none
deriving DecidableEq, Repr

/-- Python exceptions relevant to the code paths of `src/api/index.py`. -/
inductive PyExn
  | valueError (msg : String)
  | keyError (key : String)
  | typeError (msg : String)
deriving DecidableEq, Repr

/-- Rendering `str(e)` used by the blanket handlers when building the 500
message; `str(KeyError(k))` shows the missing key in quotes. -/
def PyExn.text : PyExn → String
  | .valueError m => m
  | .keyError k => "'" ++ k ++ "'"
  | .typeError m => m

/-- What an endpooint returns on failure: a structured 400 `jsonify` error,
or the blanket `except Exception` 500 error. -/
inductive ApiErr
  | badRequest (msg : String)
  | internal (msg : String)
deriving DecidableEq, Repr

instance {ε α : Type} [DecidableEq ε] [DecidableEq α] : DecidableEq (Except ε α) := fun a b =>
  match a, b with
  | .ok x, .ok y => if h : x = y then .isTrue (by rw [h]) else .isFalse (by simp [h])
  | .error x, .error y => if h : x = y then .isTrue (by rw [h]) else .isFalse (by simp [h])
  | .ok _, .error _ => .isFalse (by simp)
  | .error _, .ok _ => .isFalse (by simp)

/-- Value of a decimal digit character, if it is one. -/
def charDigit (c : Char) : Option ℕ :=
  if c.isDigit then some (c.toNat - 48) else Option.none

/-- Value of a digit string (empty list gives 0; callers check emptiness). -/
def digitsVal (cs : List Char) : Option ℕ :=
  cs.foldlM (fun acc c => (charDigit c).map (fun d => acc * 10 + d)) 0

/-- Parse an unsigned decimal numeral `digits[.digits]`, as accepted by
`float()` / `pd.to_numeric` for plain decimal strings. -/
def parseUnsignedDec (cs : List Char) : Option ℚ :=
  let intPart := cs.takeWhile (·.isDigit)
  let rest := cs.dropWhile (·.isDigit)
  match rest with
  | [] =>
    if intPart.isEmpty then Option.none
    else (digitsVal intPart).map (fun n => (n : ℚ))
  | '.' :: frac =>
    if frac.all (·.isDigit) && !(intPart.isEmpty && frac.isEmpty) then
      match digitsVal intPart, digitsVal frac with
      | some n, some f => some ((n : ℚ) + (f : ℚ) / ((10 : ℚ) ^ frac.length))
      | _, _ => Option.none
    else Option.none
  | _ => Option.none

/-- Strip leading and trailing whitespace (the `str.strip()` both
`float()` and `int()` apply to their argument). -/
def trimChars (cs : List Char) : List Char :=
  ((cs.dropWhile (·.isWhitespace)).reverse.dropWhile (·.isWhitespace)).reverse

/-- Parse a (possibly signed) decimal numeral string.  Scientific notation
and other `float()` spellings are outside the inputs this development
evaluates and are conservatively rejected. -/
def parseDecimal (s : String) : Option ℚ :=
  match trimChars s.data with
  | '-' :: cs => (parseUnsignedDec cs).map Neg.neg
  | '+' :: cs => parseUnsignedDec cs
  | cs => parseUnsignedDec cs

/-- Embedding of `pd.to_numeric(value, errors='coerce')` on one scalar:
numbers pass through, numeric strings are parsed, anything else (including
null/absent) coerces to NaN, i.e. `Option.none`. -/
def toNumeric : PyVal → Option ℚ
  | .num q => some q
  | .str s => parseDecimal s
  | .none => Option.none

/-- Nanoseconds in a day (pandas timestamps are int64 nanoseconds). -/
def nsDay : ℤ := 86400000000000

/-- Largest int64, the bound of pandas `Timedelta`/`Timestamp` values. -/
def int64Max : ℕ := 9223372036854775807

/-- Whether a Gregorian year is a leap year. -/
def isLeap (y : ℕ) : Bool :=
  (y % 4 == 0 && y % 100 != 0) || (y % 400 == 0)

/-- Days in a month of the proleptic Gregorian calendar. -/
def daysInMonth (y m : ℕ) : ℕ :=
  if m == 2 then (if isLeap y then 29 else 28)
  else if m == 4 || m == 6 || m == 9 || m == 11 then 30
  else 31

/-- Days from 1970-01-01 to the given civil date (standard civil-calendar
conversion, restricted to years ≥ 1; used for years in pandas range). -/
def civilDays (y m d : ℕ) : ℤ :=
  let y1 := if m ≤ 2 then y - 1 else y
  let era := y1 / 400
  let yoe := y1 - era * 400
  let mp := (m + 9) % 12
  let doy := (153 * mp + 2) / 5 + (d - 1)
  let doe := yoe * 365 + yoe / 4 - yoe / 100 + doy
  ((era * 146097 + doe : ℕ) : ℤ) - 719468

def splitDashAux : List Char → List Char → List (List Char)
  | [], acc => [acc.reverse]
  | c :: rest, acc =>
    if c = '-' then acc.reverse :: splitDashAux rest []
    else splitDashAux rest (c :: acc)

/-- Split a character list on the dash separator of ISO dates. -/
def splitDash (cs : List Char) : List (List Char) := splitDashAux cs []

/-- Embedding of the calendar-date parsing that `pd.to_datetime` performs on
strings, for ISO `YYYY-MM-DD` dates (the format this development evaluates;
the pandas parser accepts more formats, all irrelevant to the claims, and
other strings are treated as unparseable).  Result is nanoseconds since the
epoch; out-of-range years are unparseable (pandas `Timestamp` bounds). -/
def parseDateStr (s : String) : Option ℤ :=
  match splitDash s.data with
  | [ys, ms, ds] =>
    match digitsVal ys, digitsVal ms, digitsVal ds with
    | some y, some m, some d =>
      if ys.length == 4 && ds.length ≤ 2 && 1 ≤ m && m ≤ 12 && 1 ≤ d &&
          d ≤ daysInMonth y m && 1678 ≤ y && y ≤ 2261 then
        some (civilDays y m d * nsDay)
      else Option.none
    | _, _, _ => Option.none
  | _ => Option.none

/-- Embedding of `pd.to_datetime(value, errors='coerce')` on one scalar of
the `date` column: a NUMBER is interpreted as nanoseconds since the epoch
(the pandas default unit for numeric input), a string is parsed as a
calendar date, anything else is NaT (`Option.none`).  Numeric input beyond
the int64 range is NaT under `errors='coerce'`. -/
def toDatetime : PyVal → Option ℤ
  | .num q =>
    let n : ℤ := ⌊q⌋
    if n.natAbs ≤ int64Max then some n else Option.none
  | .str s => parseDateStr s
  | .none => Option.none

/-- Embedding of the helper `parse_date_value` (src/api/index.py lines
18-30).  A numeric value strictly greater than 25569 is converted with
`pd.to_datetime('1899-12-30') + pd.to_timedelta(v, unit='D')`; that
conversion sits OUTSIDE any try/except, and `pd.to_timedelta` raises
`OutOfBoundsTimedelta` (a `ValueError`) when `v` days exceed the int64
nanosecond range — the exception propagates out of the function.  A numeric
value at or below 25569 falls through to `return None`.  A string is parsed
inside `try/except ValueError`, so unparseable strings yield `None`.  Any
other type yields `None`. -/
def parse_date_value : PyVal → Except PyExn (Option ℤ)
  | .num q =>
    if 25569 < q then
      if q * 86400000000000 ≤ ((int64Max : ℕ) : ℚ) then
        .ok (some ⌊(q - 25569) * (86400000000000 : ℚ)⌋)
      else .error (.valueError ("OutOfBoundsTimedelta"))
    else .ok Option.none
  | .str s => .ok (parseDateStr s)
  | .none => .ok Option.none

/-- A decoded JSON row: a mapping from column names to scalar values. -/
abbrev Row := List (String × PyVal)

/-- A decoded JSON table: the `dataframe` / `time_series_data` payload. -/
abbrev Table := List Row

/-- Value of a named field in a row; a missing key is NaN in the DataFrame
built from a list of dicts. -/
def rowGet (r : Row) (c : String) : PyVal :=
  match r.lookup c with
  | some v => v
  | Option.none => PyVal.none

/-- Whether the DataFrame built from the table has a column `c`: true iff
some row carries the key.  `df[c]` raises `KeyError` otherwise. -/
def hasCol (t : Table) (c : String) : Bool :=
  t.any (fun r => (r.lookup c).isSome)

/-- First requested column that is absent from every row — the column whose
`df[col]` access raises `KeyError` in the per-column coercion loop. -/
def missingCol (t : Table) (cols : List String) : Option String :=
  cols.find? (fun c => !hasCol t c)

/-- Coerce the required columns of one row with `pd.to_numeric`; `none` when
any of them fails (the row is dropped as a unit by `dropna`). -/
def rowClean (r : Row) (cols : List String) : Option (List ℚ) :=
  cols.mapM (fun c => toNumeric (rowGet r c))

/-- Rows surviving `df[cols].dropna()` after per-column numeric coercion,
each row listed in the order of `cols`. -/
def cleanRows (t : Table) (cols : List String) : List (List ℚ) :=
  t.filterMap (fun r => rowClean r cols)

/-- The per-column coercion loop plus `dropna`: raises `KeyError` on the
first requested column absent from the table, otherwise returns the cleaned
rows. -/
def clean (t : Table) (cols : List String) : Except PyExn (List (List ℚ)) :=
  match missingCol t cols with
  | some c => .error (.keyError c)
  | Option.none => .ok (cleanRows t cols)

/-- Sum of a list of rationals. -/
def qsum (l : List ℚ) : ℚ := l.foldr (· + ·) 0

/-- Arithmetic mean (callers only use it on nonempty lists). -/
def qmean (l : List ℚ) : ℚ := qsum l / (l.length : ℚ)

/-- Deviations from the mean. -/
def devs (l : List ℚ) : List ℚ := l.map (· - qmean l)

/-- Centered cross-moment `Σ (xᵢ - x̄)(yᵢ - ȳ)`; the shared numerator of
covariance and correlation (the `1/(n-1)` factors of `cov`/`std` cancel in
the Pearson ratio, exactly as in the pandas computation). -/
def sxy (xs ys : List ℚ) : ℚ := qsum ((devs xs).zipWith (· * ·) (devs ys))

/-- Centered second moment `Σ (xᵢ - x̄)²`. -/
def sxx (xs : List ℚ) : ℚ := sxy xs xs

/-- One cell of the pandas correlation matrix.  pandas computes
`covxy / sqrt(vx * vy)` and writes NaN when the divisor is zero; since the
square root leaves ℚ, a finite cell is kept as the pair (numerator,
squared divisor), denoting `cov / √varProd`. -/
inductive CorrCell
  | nan
  | frac (cov : ℚ) (varProd : ℚ)
deriving DecidableEq, Repr

/-- Embedding of one cell of `df_numeric.corr()`: NaN when either column
has zero variance, otherwise the Pearson ratio. -/
def corrCell (xs ys : List ℚ) : CorrCell :=
  if sxx xs * sxx ys = 0 then .nan else .frac (sxy xs ys) (sxx xs * sxx ys)

/-- A `CorrCell` denotes the real number exactly 1.0: `c / √v = 1` for a
positive `c` with `c² = v`. -/
def CorrCell.isOne : CorrCell → Prop
  | .nan => False
  | .frac c v => 0 < c ∧ c * c = v

/-- Data of the named column in the cleaned row-major table (columns are
aligned with the requested column list). -/
def colData (rows : List (List ℚ)) (cols : List String) (c : String) : List ℚ :=
  match cols.indexOf? c with
  | some i => rows.map (fun r => r.getD i 0)
  | Option.none => []

/-- Embedding of `df_numeric.corr().to_dict()`: column → column → cell. -/
def corrMatrix (cols : List String) (rows : List (List ℚ)) :
    List (String × List (String × CorrCell)) :=
  cols.map (fun a => (a, cols.map (fun b => (b, corrCell (colData rows cols a) (colData rows cols b)))))

/-- Cell lookup in the nested response dictionary. -/
def corrLookup (m : List (String × List (String × CorrCell))) (a b : String) :
    Option CorrCell :=
  (m.lookup a).bind (fun row => row.lookup b)

/-- Decoded request body of `/calculate_correlation`. -/
structure CorrReq where
  dataframe : Option Table
  columns : Option (List String)

/-- The 400 message of the correlation emptiness check. -/
def corrEmptyMsg : String :=
  "Not enough valid numeric data or columns for correlation calculation after cleaning."

/-- The 400 message of the correlation parameter-presence check. -/
def corrMissingMsg : String := "Missing 'dataframe' or 'columns' in request"

/-- Embedding of the `/calculate_correlation` endpoint (src/api/index.py
lines 36-57): presence check, per-column numeric coercion (KeyError on a
column absent from the table is caught by the blanket handler and returned
as a 500), joint `dropna`, the emptiness/column-count 400, then the
correlation matrix. -/
def calculate_correlation (req : CorrReq) :
    Except ApiErr (List (String × List (String × CorrCell))) :=
  match req.dataframe, req.columns with
  | some t, some cols =>
    match clean t cols with
    | .error e => .error (.internal ("Correlation calculation failed: " ++ e.text))
    | .ok rows =>
      if rows = [] ∨ cols.length < 2 then .error (.badRequest corrEmptyMsg)
      else .ok (corrMatrix cols rows)
  | _, _ => .error (.badRequest corrMissingMsg)

/-- IEEE-style value produced by the float metric formulas: the statsmodels
metric computations divide by possibly-zero degree-of-freedom terms and
numpy yields nan/±inf instead of raising. -/
inductive PFloat
  | nan
  | inf
  | ninf
  | val (q : ℚ)
deriving DecidableEq, Repr

/-- IEEE subtraction on the modelled values. -/
def PFloat.sub : PFloat → PFloat → PFloat
  | nan, _ => nan
  | _, nan => nan
  | val a, val b => val (a - b)
  | val _, inf => ninf
  | val _, ninf => inf
  | inf, val _ => inf
  | ninf, val _ => ninf
  | inf, inf => nan
  | inf, ninf => inf
  | ninf, inf => ninf
  | ninf, ninf => nan

/-- IEEE multiplication on the modelled values. -/
def PFloat.mul : PFloat → PFloat → PFloat
  | nan, _ => nan
  | _, nan => nan
  | val a, val b => val (a * b)
  | val a, inf => if a = 0 then nan else if 0 < a then inf else ninf
  | val a, ninf => if a = 0 then nan else if 0 < a then ninf else inf
  | inf, val b => if b = 0 then nan else if 0 < b then inf else ninf
  | ninf, val b => if b = 0 then nan else if 0 < b then ninf else inf
  | inf, inf => inf
  | inf, ninf => ninf
  | ninf, inf => ninf
  | ninf, ninf => inf

/-- IEEE division on the modelled values (`x/+0` carries the sign of `x`,
`0/0` is nan — numpy semantics, with the zero always `+0` here). -/
def PFloat.div : PFloat → PFloat → PFloat
  | nan, _ => nan
  | _, nan => nan
  | val a, val b =>
    if b = 0 then (if a = 0 then nan else if 0 < a then inf else ninf)
    else val (a / b)
  | val _, inf => val 0
  | val _, ninf => val 0
  | inf, val b => if b < 0 then ninf else inf
  | ninf, val b => if b < 0 then inf else ninf
  | inf, inf => nan
  | inf, ninf => nan
  | ninf, inf => nan
  | ninf, ninf => nan

/-- Dot product. -/
def dot (xs ys : List ℚ) : ℚ := qsum (xs.zipWith (· * ·) ys)

/-- Back-substituting Gaussian elimination on an augmented system (rows of
coefficients paired with right-hand sides); `n` is the number of unknowns.
Returns `none` when no nonzero pivot exists in a column. -/
def gaussSolve : ℕ → List (List ℚ × ℚ) → Option (List ℚ)
  | 0, _ => some []
  | n + 1, rows =>
    match rows.span (fun rc => decide (rc.1.headD 0 = 0)) with
    | (_, []) => Option.none
    | (pre, p :: post) =>
      let reduce : List ℚ × ℚ → List ℚ × ℚ := fun rc =>
        let f := rc.1.headD 0 / p.1.headD 0
        (rc.1.tail.zipWith (fun a b => a - f * b) p.1.tail, rc.2 - f * p.2)
      match gaussSolve n ((pre ++ post).map reduce) with
      | some xs => some (((p.2 - dot p.1.tail xs) / p.1.headD 0) :: xs)
      | Option.none => Option.none

/-- Design matrix with the `sm.add_constant` intercept column: rows of the
cleaned table are `[y, x₁, …, x_k]`; the design rows are `[1, x₁, …, x_k]`. -/
def designX (rows : List (List ℚ)) : List (List ℚ) :=
  rows.map (fun r => 1 :: r.tail)

/-- Dependent-variable vector (head of each cleaned row). -/
def yVec (rows : List (List ℚ)) : List ℚ := rows.map (fun r => r.headD 0)

/-- Embedding of the `sm.OLS(y, X).fit()` coefficient solve: the normal
equations `XᵀX β = Xᵀy` solved exactly.  statsmodels solves by
Moore-Penrose pseudoinverse and never raises; when `XᵀX` is singular its
minimum-norm solution is not re-derived here and the solve falls back to a
zero vector (no theorem below depends on that branch). -/
def olsSolve (X : List (List ℚ)) (y : List ℚ) (k1 : ℕ) : List ℚ :=
  let Xt := X.transpose
  let aug := Xt.map (fun u => (Xt.map (fun v => dot u v), dot u y))
  match gaussSolve k1 aug with
  | some β => β
  | Option.none => List.replicate k1 0

/-- Residual sum of squares of the fitted model. -/
def ssrOf (X : List (List ℚ)) (y β : List ℚ) : ℚ :=
  qsum ((y.zipWith (fun yi r => yi - dot r β) X).map (fun e => e * e))

/-- statsmodels `rsquared`: `1 - ssr/centered_tss`. -/
def rsqM (ssr tss : ℚ) : PFloat :=
  PFloat.sub (.val 1) (PFloat.div (.val ssr) (.val tss))

/-- statsmodels `rsquared_adj`: `1 - (1 - R²)(n-1)/(n-k-1)` with the
degrees of freedom as (possibly zero or negative) floats — numpy turns the
zero division into nan/inf rather than raising. -/
def adjRsqM (ssr tss : ℚ) (n k : ℕ) : PFloat :=
  PFloat.sub (.val 1)
    (PFloat.div (PFloat.mul (PFloat.sub (.val 1) (rsqM ssr tss)) (.val ((n : ℚ) - 1)))
      (.val ((n : ℚ) - (k : ℚ) - 1)))

/-- statsmodels `fvalue`: `(ess/df_model) / (ssr/df_resid)`. -/
def fstatM (ssr tss : ℚ) (n k : ℕ) : PFloat :=
  PFloat.div (PFloat.div (.val (tss - ssr)) (.val (k : ℚ)))
    (PFloat.div (.val ssr) (.val ((n : ℚ) - (k : ℚ) - 1)))

/-- Value slot of a JSON response field.  Quantities whose exact value
lives outside ℚ or inside an external library are kept symbolic: `sqrtOf q`
is `np.sqrt q`, `fPValue` is the scipy F-distribution survival function at
the F statistic, `htmlSummary` is the statsmodels HTML summary table,
`libFloat`/`importances` are the seeded-sklearn random-forest metrics whose
numerics are library-internal (no claim below depends on those values). -/
inductive RVal
  | s (v : String)
  | pf (v : PFloat)
  | sqrtOf (v : ℚ)
  | coeffs (l : List (String × ℚ))
  | fPValue (f : PFloat) (dfModel dfResid : ℚ)
  | htmlSummary
  | libFloat (tag : String)
  | importances (feats : List String)
deriving DecidableEq, Repr

/-- Decoded request body of `/run_linear_regression`. -/
structure LrReq where
  dataframe : Option Table
  dependent_var : Option String
  independent_vars : Option (List String)

/-- Embedding of the `/run_linear_regression` endpoint (src/api/index.py
lines 59-122): presence check, numeric coercion and joint `dropna` over
`[dependent] + independents`, the emptiness 400, then the OLS fit and the
literal success dictionary.  There is no row-count/underdetermination
check: statsmodels fits any nonempty cleaned table (via pinv) and the
metric formulas produce nan/inf floats when `n - k - 1 ≤ 0`. -/
def run_linear_regression (req : LrReq) : Except ApiErr (List (String × RVal)) :=
  match req.dataframe, req.dependent_var, req.independent_vars with
  | some t, some dep, some indep =>
    match clean t (dep :: indep) with
    | .error e => .error (.internal ("Linear Regression failed: " ++ e.text))
    | .ok rows =>
      if rows = [] then .error (.badRequest ("No valid data after cleaning for linear regression"))
      else
        let n := rows.length
        let k := indep.length
        let X := designX rows
        let y := yVec rows
        let β := olsSolve X y (k + 1)
        let ssr := ssrOf X y β
        let tss := sxx y
        .ok [(("status"), .s ("success")),
             (("summary_html"), .htmlSummary),
             (("coefficients"), .coeffs ((("const") :: indep).zip β)),
             (("r_squared"), .pf (rsqM ssr tss)),
             (("adj_r_squared"), .pf (adjRsqM ssr tss n k)),
             (("f_statistic"), .pf (fstatM ssr tss n k)),
             (("f_p_value"), .fPValue (fstatM ssr tss n k) (k : ℚ) ((n : ℚ) - (k : ℚ) - 1)),
             (("rmse"), .sqrtOf (ssr / (n : ℚ))),
             (("insights"), .s ("insights"))]
  | _, _, _ => .error (.badRequest ("Missing required data for regression"))

/-- Truncation toward zero, the behaviour of Python `int()` on a float. -/
def ratTrunc (q : ℚ) : ℤ := if q < 0 then -⌊-q⌋ else ⌊q⌋

/-- Python `int()` on a string: optional sign and decimal digits, anything
else raises `ValueError`. -/
def pyIntOfString (s : String) : Except PyExn ℤ :=
  let core : List Char → Option ℕ := fun ds =>
    if !ds.isEmpty && ds.all (·.isDigit) then digitsVal ds else Option.none
  let r : Option ℤ :=
    match trimChars s.data with
    | '-' :: ds => (core ds).map (fun n => -(n : ℤ))
    | '+' :: ds => (core ds).map (fun n => (n : ℤ))
    | ds => (core ds).map (fun n => (n : ℤ))
  match r with
  | some z => .ok z
  | Option.none => .error (.valueError ("invalid literal for int() with base 10"))

/-- Python `int()` on a scalar value. -/
def pyInt : PyVal → Except PyExn ℤ
  | .num q => .ok (ratTrunc q)
  | .str s => pyIntOfString s
  | .none => .error (.typeError ("int() argument must be a string or a number, not NoneType"))

/-- Decoded request body of `/run_random_forest`.  `n_estimators` is a
required field of the request (there is no default). -/
structure RfReq where
  dataframe : Option Table
  dependent_var : Option String
  independent_vars : Option (List String)
  n_estimators : Option PyVal

/-- Embedding of the `/run_random_forest` endpoint (src/api/index.py lines
124-178): presence check including `n_estimators`, `int()` conversion
(ValueError/TypeError → blanket 500), numeric coercion and joint `dropna`,
the emptiness 400, then the sklearn fit.  `RandomForestRegressor` validates
at fit time: `n_estimators < 1` or an empty feature matrix raise
`ValueError`, which the blanket handler converts to a 500.  The numeric
content of a successful seeded forest fit is sklearn-internal and kept as
symbolic `RVal`s in the literal success dictionary. -/
def run_random_forest (req : RfReq) : Except ApiErr (List (String × RVal)) :=
  match req.dataframe, req.dependent_var, req.independent_vars, req.n_estimators with
  | some t, some dep, some indep, some nv =>
    match pyInt nv with
    | .error e => .error (.internal ("Random Forest Regression failed: " ++ e.text))
    | .ok nEst =>
      match clean t (dep :: indep) with
      | .error e => .error (.internal ("Random Forest Regression failed: " ++ e.text))
      | .ok rows =>
        if rows = [] then .error (.badRequest ("No valid data after cleaning for Random Forest"))
        else if nEst < 1 then
          .error (.internal ("Random Forest Regression failed: n_estimators must be greater than zero"))
        else if indep = [] then
          .error (.internal ("Random Forest Regression failed: found array with 0 feature(s)"))
        else
          .ok [(("status"), .s ("success")),
               (("mse"), .libFloat ("mse")),
               (("mae"), .libFloat ("mae")),
               (("rmse"), .libFloat ("rmse")),
               (("r_squared"), .libFloat ("r2")),
               (("feature_importances"), .importances indep),
               (("insights"), .s ("insights"))]
  | _, _, _, _ => .error (.badRequest ("Missing required data for Random Forest"))

/-- Ordering of series points by timestamp, the key of
`sort_values(by='date')`. -/
def tsLe (a b : ℤ × ℚ) : Prop := a.1 ≤ b.1

instance : DecidableRel tsLe := fun a b => inferInstanceAs (Decidable (a.1 ≤ b.1))

instance : IsTotal (ℤ × ℚ) tsLe := ⟨fun a b => le_total a.1 b.1⟩

instance : IsTrans (ℤ × ℚ) tsLe := ⟨fun _ _ _ h h2 => le_trans h h2⟩

/-- Embedding of the series cleaning of `/time_series_predict` (lines
194-198): coerce the `date` column with `pd.to_datetime(errors='coerce')`
and the `value` column with `pd.to_numeric(errors='coerce')`, drop rows
failing either, sort ascending by timestamp. -/
def tsCleanRows (t : Table) : List (ℤ × ℚ) :=
  List.insertionSort tsLe
    (t.filterMap (fun r =>
      match toDatetime (rowGet r ("date")), toNumeric (rowGet r ("value")) with
      | some d, some v => some (d, v)
      | _, _ => Option.none))

/-- Consecutive gaps of a timestamp list. -/
def gapsOf : List ℤ → List ℤ
  | a :: b :: rest => (b - a) :: gapsOf (b :: rest)
  | _ => []

/-- Embedding of `pd.infer_freq` on a sorted unique index, for fixed-tick
frequencies: at least 3 timestamps with one constant positive gap.
Anchored calendar frequencies (weekly, month-based) are not representable
here; the theorems below only exercise tick frequencies.  Fewer than 3
points make `infer_freq` raise `ValueError`, and an irregular index makes
it return `None` so that `asfreq(None)` raises `ValueError`; both are
caught by the `except ValueError` fallback to daily, i.e. both land in the
`Option.none` case consumed by `tsFreq`. -/
def inferFreq (ts : List ℤ) : Option ℤ :=
  if ts.length < 3 then Option.none
  else
    match gapsOf ts with
    | [] => Option.none
    | g :: gs => if decide (0 < g) && gs.all (fun x => decide (x = g)) then some g else Option.none

/-- The frequency the series index ends up with after the try/except block
of lines 205-208: the inferred tick frequency, or daily on fallback. -/
def tsFreq (s : List (ℤ × ℚ)) : ℤ :=
  match inferFreq (s.map (·.1)) with
  | some f => f
  | Option.none => nsDay

/-- Grid `start, start+step, …` up to `last` inclusive, the index built by
`asfreq` regridding (`pd.date_range(first, last, freq)`). -/
def gridPoints (first last step : ℤ) : List ℤ :=
  (List.range ((last - first).toNat / step.toNat + 1)).map (fun i : ℕ => first + step * (i : ℤ))

/-- Embedding of `series.asfreq(f)`: reindex onto the tick grid anchored at
the first timestamp; grid points absent from the series get NaN values. -/
def regrid (s : List (ℤ × ℚ)) (step : ℤ) : List (ℤ × Option ℚ) :=
  match s with
  | [] => []
  | (t0, _) :: _ =>
    let last := ((s.getLast?).map (·.1)).getD t0
    (gridPoints t0 last step).map (fun g => (g, s.lookup g))

/-- The frequency-normalisation step of lines 203-208.  `asfreq` (in either
the try or the except branch) raises on a duplicate index
("cannot reindex from a duplicate axis", a `ValueError` that in the except
branch escapes to the blanket handler, and from the try branch is retried
as `asfreq('D')` which raises it again); otherwise the series is regridded
at `tsFreq`. -/
def tsProc (s : List (ℤ × ℚ)) : Except PyExn (List (ℤ × Option ℚ) × ℤ) :=
  if (s.map (·.1)).Nodup then .ok (regrid s (tsFreq s), tsFreq s)
  else .error (.valueError ("cannot reindex from a duplicate axis"))

/-- Values of the processed series, `none` when any position is NaN (both
fitting branches raise `ValueError` on NaN input). -/
def seriesVals (proc : List (ℤ × Option ℚ)) : Option (List ℚ) :=
  proc.mapM (·.2)

/-- Last timestamp of the processed series, `series.index[-1]`. -/
def lastTs (proc : List (ℤ × Option ℚ)) : ℤ :=
  ((proc.getLast?).map (·.1)).getD 0

/-- Future index of both forecasting branches:
`pd.date_range(start=last_date + pd.Timedelta(days=1), periods=h, freq)` —
the start parameter is the last historical timestamp plus exactly one day,
and a tick frequency starts the range exactly at the start parameter. -/
def futureDates (last f : ℤ) (h : ℕ) : List ℤ :=
  (List.range h).map (fun i : ℕ => (last + nsDay) + f * (i : ℤ))

/-- Mean squared error of paired lists. -/
def mseOf (ys yhat : List ℚ) : ℚ :=
  qsum ((ys.zipWith (fun a b => (a - b) * (a - b)) yhat)) / (ys.length : ℚ)

/-- Modelled from the spec: `pm.auto_arima(series, ...)` plus
`model_fit.predict(n_periods=h)` — the stepwise AIC order search and MLE
fit live in the pmdarima library, not in src/, and their numeric output is
not re-derived here.  Only the documented interface contract is used by any
theorem: `predict(n_periods=h)` returns exactly `h` point forecasts.  The
placeholder forecast is the series mean (the ARIMA(0,0,0) point forecast). -/
def pmAutoArimaForecast (ys : List ℚ) (h : ℕ) : List ℚ :=
  List.replicate h (qmean ys)

/-- sklearn `LinearRegression().fit(X, y)` on `X = [[0], [1], …]`: the
exact least-squares slope and intercept of the centered solve; with a
single sample the centered system is all-zero and the minimum-norm `lstsq`
solution is slope 0 with intercept `ȳ`. -/
def lrSlopeIntercept (ys : List ℚ) : ℚ × ℚ :=
  let xs := (List.range ys.length).map (fun i => ((i : ℕ) : ℚ))
  if sxx xs = 0 then (0, qmean ys)
  else
    let b := sxy xs ys / sxx xs
    (b, qmean ys - b * qmean xs)

/-- Python `str.lower()`. -/
def pyLower (s : String) : String := String.mk (s.data.map Char.toLower)

/-- Decoded request body of `/time_series_predict`. -/
structure TsReq where
  time_series_data : Option Table
  prediction_horizon : Option PyVal
  model_type : Option PyVal

/-- Successful response of `/time_series_predict`: the forecast points (the
serialised `date.isoformat()` strings are kept as their underlying
nanosecond timestamps, an injective rendering) and the in-sample RMSE
(`None` for a single-point series). -/
structure TsResp where
  predictions : List (ℤ × ℚ)
  rmse : Option RVal
deriving DecidableEq, Repr

/-- The 400 message of the series emptiness check. -/
def noValidMsg : String := "No valid data for time series analysis after cleaning."

/-- The 400 message of the model-type dispatch. -/
def invalidModelMsg : String :=
  "Invalid model_type specified. Choose 'arima' or 'simple_linear_regression'."

/-- The 400 message of the parameter-presence check. -/
def tsMissingMsg : String := "Missing required parameters for time series prediction"

/-- Prefix of the blanket 500 message of `/time_series_predict`. -/
def tsFailPrefix : String := "An error occurred during time series prediction: "

/-- The `model_type == 'arima'` branch (lines 213-224 and 256-259):
auto-ARIMA fit (raises on NaN input), forecast of `h` periods, future index
from `last + 1 day` stepping by the index frequency, and the in-sample RMSE
computed from `predict(n_periods=len(series))` when the series has more
than one point.  A negative horizon makes `predict` raise. -/
def arimaBranch (proc : List (ℤ × Option ℚ)) (f : ℤ) (h : ℤ) : Except ApiErr TsResp :=
  match seriesVals proc with
  | Option.none => .error (.internal (tsFailPrefix ++ "Input contains NaN"))
  | some ys =>
    if h < 0 then .error (.internal (tsFailPrefix ++ "n_periods must be a positive integer"))
    else
      let vals := pmAutoArimaForecast ys h.toNat
      let dates := futureDates (lastTs proc) f h.toNat
      .ok { predictions := dates.zip vals,
            rmse := if 1 < ys.length then
                some (RVal.sqrtOf (mseOf ys (pmAutoArimaForecast ys ys.length)))
              else Option.none }

/-- The `model_type == 'simple_linear_regression'` branch (lines 226-244
and 260-262): a linear trend on the positional index (raises on NaN input),
predictions at positions `n, …, n+h-1`, future index from `last + 1 day`
stepping by the index frequency, and the in-sample RMSE of the fitted trend
when the series has more than one point.  A negative horizon makes
`date_range` raise. -/
def lrBranch (proc : List (ℤ × Option ℚ)) (f : ℤ) (h : ℤ) : Except ApiErr TsResp :=
  match seriesVals proc with
  | Option.none => .error (.internal (tsFailPrefix ++ "Input contains NaN"))
  | some ys =>
    if h < 0 then .error (.internal (tsFailPrefix ++ "Number of samples must be non-negative"))
    else
      let ba := lrSlopeIntercept ys
      let n := ys.length
      let vals := (List.range h.toNat).map (fun i : ℕ => ba.2 + ba.1 * ((n : ℚ) + (i : ℚ)))
      let dates := futureDates (lastTs proc) f h.toNat
      .ok { predictions := dates.zip vals,
            rmse := if 1 < n then
                some (RVal.sqrtOf (mseOf ys ((List.range n).map (fun i => ba.2 + ba.1 * ((i : ℕ) : ℚ)))))
              else Option.none }

/-- Embedding of the `/time_series_predict` endpoint (src/api/index.py
lines 180-277): presence check; `int(prediction_horizon)` and
`model_type.lower()` (non-string model types raise `AttributeError` into
the blanket handler); `series_df['date']` / `series_df['value']` raise
`KeyError` when the column is absent from every row; coercion, `dropna`,
ascending sort; the emptiness 400; frequency normalisation; then dispatch —
`arima`, `simple_linear_regression`, or the invalid-model-type 400. -/
def time_series_predict (req : TsReq) : Except ApiErr TsResp :=
  match req.time_series_data, req.prediction_horizon, req.model_type with
  | some rows, some hv, some mv =>
    match pyInt hv with
    | .error e => .error (.internal (tsFailPrefix ++ e.text))
    | .ok h =>
      match mv with
      | .str mRaw =>
        let m := pyLower mRaw
        if hasCol rows ("date") then
          if hasCol rows ("value") then
            let s := tsCleanRows rows
            if s = [] then .error (.badRequest noValidMsg)
            else
              match tsProc s with
              | .error e => .error (.internal (tsFailPrefix ++ e.text))
              | .ok pf2 =>
                if m = ("arima") then arimaBranch pf2.1 pf2.2 h
                else if m = ("simple_linear_regression") then lrBranch pf2.1 pf2.2 h
                else .error (.badRequest invalidModelMsg)
          else .error (.internal (tsFailPrefix ++ "'value'"))
        else .error (.internal (tsFailPrefix ++ "'date'"))
      | _ => .error (.internal (tsFailPrefix ++ "object has no attribute 'lower'"))
  | _, _, _ => .error (.badRequest tsMissingMsg)

/-! ### Shared lemmas about the embedding -/

unseal Rat.add Rat.mul Rat.inv Rat.sub

theorem inferFreq_pos {ts : List ℤ} {g : ℤ} (h : inferFreq ts = some g) : 0 < g := by
  unfold inferFreq at h
  split at h
  · exact absurd h (by simp)
  · revert h
    split
    · intro h; exact absurd h (by simp)
    · rename_i g2 gs
      split
      · rename_i hc
        intro h
        injection h with h
        subst h
        simp only [Bool.and_eq_true, decide_eq_true_eq] at hc
        exact hc.1
      · intro h; exact absurd h (by simp)

theorem tsFreq_pos (s : List (ℤ × ℚ)) : 0 < tsFreq s := by
  unfold tsFreq
  split
  · rename_i f hf; exact inferFreq_pos hf
  · decide

theorem futureDates_length (L f : ℤ) (h : ℕ) : (futureDates L f h).length = h := by
  unfold futureDates
  rw [List.length_map, List.length_range]

theorem futureDates_head (L f : ℤ) {h : ℕ} (hh : 0 < h) :
    (futureDates L f h).head? = some (L + nsDay) := by
  unfold futureDates
  cases h with
  | zero => exact absurd hh (by simp)
  | succ n =>
    rw [List.range_succ_eq_map]
    simp

theorem futureDates_pairwise (L : ℤ) {f : ℤ} (hf : 0 < f) (h : ℕ) :
    List.Pairwise (· < ·) (futureDates L f h) := by
  unfold futureDates
  rw [List.pairwise_map]
  refine (List.pairwise_lt_range h).imp ?_
  intro a b hab
  have hab2 : (a : ℤ) < (b : ℤ) := by exact_mod_cast hab
  exact add_lt_add_left (mul_lt_mul_of_pos_left hab2 hf) _

theorem tsProc_ok {s : List (ℤ × ℚ)} {pr : List (ℤ × Option ℚ) × ℤ}
    (h : tsProc s = .ok pr) : pr = (regrid s (tsFreq s), tsFreq s) := by
  unfold tsProc at h
  split at h
  · injection h with h; rw [h]
  · exact absurd h (by simp)

theorem arimaBranch_ok {proc : List (ℤ × Option ℚ)} {f h : ℤ} {resp : TsResp}
    (hr : arimaBranch proc f h = .ok resp) :
    ∃ vals : List ℚ, vals.length = h.toNat ∧
      resp.predictions = (futureDates (lastTs proc) f h.toNat).zip vals := by
  unfold arimaBranch at hr
  cases hsv : seriesVals proc with
  | none => rw [hsv] at hr; exact absurd hr (by simp)
  | some ys =>
    rw [hsv] at hr
    dsimp only at hr
    by_cases hneg : h < 0
    · rw [if_pos hneg] at hr; exact absurd hr (by simp)
    · rw [if_neg hneg] at hr
      injection hr with hr
      exact ⟨pmAutoArimaForecast ys h.toNat, by simp [pmAutoArimaForecast], by rw [← hr]⟩

theorem lrBranch_ok {proc : List (ℤ × Option ℚ)} {f h : ℤ} {resp : TsResp}
    (hr : lrBranch proc f h = .ok resp) :
    ∃ vals : List ℚ, vals.length = h.toNat ∧
      resp.predictions = (futureDates (lastTs proc) f h.toNat).zip vals := by
  unfold lrBranch at hr
  cases hsv : seriesVals proc with
  | none => rw [hsv] at hr; exact absurd hr (by simp)
  | some ys =>
    rw [hsv] at hr
    dsimp only at hr
    by_cases hneg : h < 0
    · rw [if_pos hneg] at hr; exact absurd hr (by simp)
    · rw [if_neg hneg] at hr
      injection hr with hr
      refine ⟨_, ?_, by rw [← hr]⟩
      rw [List.length_map, List.length_range]

theorem arimaBranch_ne_badRequest (proc : List (ℤ × Option ℚ)) (f h : ℤ) (msg : String) :
    arimaBranch proc f h ≠ .error (.badRequest msg) := by
  unfold arimaBranch
  split
  · simp
  · split
    · simp
    · simp

theorem lrBranch_ne_badRequest (proc : List (ℤ × Option ℚ)) (f h : ℤ) (msg : String) :
    lrBranch proc f h ≠ .error (.badRequest msg) := by
  unfold lrBranch
  split
  · simp
  · split
    · simp
    · simp

theorem ts_ok_cases {rows : Table} {hv : PyVal} {mRaw : String} {h : ℤ} {resp : TsResp}
    (hInt : pyInt hv = .ok h)
    (hres : time_series_predict ⟨some rows, some hv, some (.str mRaw)⟩ = .ok resp) :
    ∃ pr : List (ℤ × Option ℚ) × ℤ, tsProc (tsCleanRows rows) = .ok pr ∧
      (arimaBranch pr.1 pr.2 h = .ok resp ∨ lrBranch pr.1 pr.2 h = .ok resp) := by
  unfold time_series_predict at hres
  dsimp only at hres
  rw [hInt] at hres
  dsimp only at hres
  split at hres
  · split at hres
    · split at hres
      · exact absurd hres (by simp)
      · split at hres
        · exact absurd hres (by simp)
        · rename_i pr hpr
          split at hres
          · exact ⟨pr, hpr, Or.inl hres⟩
          · split at hres
            · exact ⟨pr, hpr, Or.inr hres⟩
            · exact absurd hres (by simp)
    · exact absurd hres (by simp)
  · exact absurd hres (by simp)

/-! ### C9 -/

/-- C9: the claim states that `parse_date_value` never raises — that every
numeric, string or other input returns a timestamp or the failure value.
The code violates this for large numeric inputs: the numeric conversion is
outside the try/except, and 106752 (a spreadsheet serial beyond the pandas
`Timedelta` bound of 106751 days) raises `OutOfBoundsTimedelta` out of the
function, while 106751 still converts, unparseable strings and null still
fail gracefully. -/
theorem C9_theorem :
    parse_date_value (.num 106752) = .error (.valueError ("OutOfBoundsTimedelta")) ∧
    parse_date_value (.num 106751) = .ok (some 7014124800000000000) ∧
    parse_date_value (.str ("definitely not a date")) = .ok Option.none ∧
    parse_date_value PyVal.none = .ok Option.none := by
  refine ⟨?_, ?_, ?_, ?_⟩ <;> decide

/-! ### C5 -/

/-- C5 counterexample: a random-forest request with valid data but no
`n_trees`/`n_estimators` field does not default to 100 trees and succeed —
the endpoint rejects it as missing required data (400). -/
theorem C5_counterexample :
    run_random_forest
      ⟨some [[(("x"), .num 1), (("y"), .num 2)], [(("x"), .num 2), (("y"), .num 4)]],
        some ("y"), some [("x")], Option.none⟩ =
      .error (.badRequest ("Missing required data for Random Forest")) := by
  decide

/-- C5 (amended): `n_estimators` is a required request field with no
default — any request lacking it fails with the missing-data 400; and a
non-positive `n_estimators` on otherwise valid data is rejected by the
sklearn fit-time `ValueError`, which the blanket handler returns as a
generic 500, not as a typed InvalidParameter 400. -/
theorem C5_amended :
    (∀ (df : Option Table) (dv : Option String) (iv : Option (List String)),
      run_random_forest ⟨df, dv, iv, Option.none⟩ =
        .error (.badRequest ("Missing required data for Random Forest"))) ∧
    (∀ (t : Table) (dep : String) (indep : List String) (rows : List (List ℚ)),
      clean t (dep :: indep) = .ok rows → rows ≠ [] →
      run_random_forest ⟨some t, some dep, some indep, some (.num 0)⟩ =
        .error (.internal ("Random Forest Regression failed: n_estimators must be greater than zero"))) := by
  constructor
  · intro df dv iv
    cases df <;> cases dv <;> cases iv <;> rfl
  · intro t dep indep rows hclean hne
    unfold run_random_forest
    dsimp only
    have hz : pyInt (.num 0) = .ok 0 := by decide
    rw [hz]
    dsimp only
    rw [hclean]
    dsimp only
    rw [if_neg hne, if_pos (by decide)]

/-- C5 witness: the amended theorem applied at a concrete request with a
zero `n_estimators` on a valid two-row table. -/
theorem C5_witness :
    run_random_forest
      ⟨some [[(("x"), .num 1), (("y"), .num 2)], [(("x"), .num 2), (("y"), .num 4)]],
        some ("y"), some [("x")], some (.num 0)⟩ =
      .error (.internal ("Random Forest Regression failed: n_estimators must be greater than zero")) :=
  C5_amended.2 [[(("x"), .num 1), (("y"), .num 2)], [(("x"), .num 2), (("y"), .num 4)]]
    ("y") [("x")] [[2, 1], [4, 2]] (by decide) (by decide)

/-! ### C4 -/

/-- C4 counterexample: an OLS request with n = 2 rows and k = 1 feature
(so n ≤ k + 1) does not fail with a typed UnderdeterminedSystem error —
the endpoint succeeds, returning nan for the adjusted R² and F statistic
(the statsmodels zero-degrees-of-freedom divisions). -/
theorem C4_counterexample :
    run_linear_regression
      ⟨some [[(("x"), .num 0), (("y"), .num 1)], [(("x"), .num 1), (("y"), .num 3)]],
        some ("y"), some [("x")]⟩ =
      .ok [(("status"), .s ("success")), (("summary_html"), .htmlSummary),
           (("coefficients"), .coeffs [(("const"), 1), (("x"), 2)]),
           (("r_squared"), .pf (.val 1)), (("adj_r_squared"), .pf .nan),
           (("f_statistic"), .pf .nan), (("f_p_value"), .fPValue .nan 1 0),
           (("rmse"), .sqrtOf 0), (("insights"), .s ("insights"))] := by
  decide

/-- C4 (amended): the endpoint performs no rows > features + 1 check and
has no UnderdeterminedSystem error kind: every request whose cleaned table
is nonempty succeeds (statsmodels fits via pseudoinverse, and
zero-or-negative residual degrees of freedom only make the metric floats
nan/inf), and the success response always carries all five metric fields
r_squared, adj_r_squared, f_statistic, f_p_value and rmse. -/
theorem C4_amended (t : Table) (dep : String) (indep : List String)
    (rows : List (List ℚ)) (hclean : clean t (dep :: indep) = .ok rows)
    (hne : rows ≠ []) :
    ∃ resp : List (String × RVal),
      run_linear_regression ⟨some t, some dep, some indep⟩ = .ok resp ∧
      resp.map Prod.fst =
        [("status"), ("summary_html"), ("coefficients"), ("r_squared"),
         ("adj_r_squared"), ("f_statistic"), ("f_p_value"), ("rmse"), ("insights")] := by
  unfold run_linear_regression
  dsimp only
  rw [hclean]
  dsimp only
  rw [if_neg hne]
  exact ⟨_, rfl, rfl⟩

/-- C4 witness: the amended theorem applied at the n = k + 1 table, whose
hypotheses are discharged by evaluation. -/
theorem C4_witness :
    ∃ resp : List (String × RVal),
      run_linear_regression
        ⟨some [[(("x"), .num 0), (("y"), .num 1)], [(("x"), .num 1), (("y"), .num 3)]],
          some ("y"), some [("x")]⟩ = .ok resp ∧
      resp.map Prod.fst =
        [("status"), ("summary_html"), ("coefficients"), ("r_squared"),
         ("adj_r_squared"), ("f_statistic"), ("f_p_value"), ("rmse"), ("insights")] :=
  C4_amended [[(("x"), .num 0), (("y"), .num 1)], [(("x"), .num 1), (("y"), .num 3)]]
    ("y") [("x")] [[1, 0], [3, 1]] (by decide) (by decide)

/-! ### C1 -/

/-- C1 counterexample: a forecast request with model_type 'arma' on a valid
two-point daily series does not run the engine with d = 0 and return a
forecast — the code rejects 'arma' with the invalid-model-type 400; and
'simple_linear_regression', although outside the spec's set {arima, arma},
is accepted and returns a forecast instead of failing with
InvalidParameter. -/
theorem C1_counterexample :
    time_series_predict
      ⟨some [[(("date"), .str ("2024-01-01")), (("value"), .num 1)],
             [(("date"), .str ("2024-01-02")), (("value"), .num 2)]],
        some (.num 1), some (.str ("arma"))⟩ = .error (.badRequest invalidModelMsg) ∧
    time_series_predict
      ⟨some [[(("date"), .str ("2024-01-01")), (("value"), .num 1)],
             [(("date"), .str ("2024-01-02")), (("value"), .num 2)]],
        some (.num 1), some (.str ("simple_linear_regression"))⟩ =
      .ok ⟨[(1704240000000000000, 3)], some (RVal.sqrtOf 0)⟩ := by
  constructor <;> decide

/-- C1 (amended): the model types the code accepts are exactly
{'arima', 'simple_linear_regression'}: for every request that passes the
parameter, horizon, column, cleaning and reindexing stages, a lowered
model_type outside that set — in particular the spec's 'arma' — fails with
the invalid-model-type 400 (the code's realisation of InvalidParameter)
and never reaches a fitting branch. -/
theorem C1_amended (rows : Table) (hv : PyVal) (mRaw : String) (h : ℤ)
    (hInt : pyInt hv = .ok h)
    (hDate : hasCol rows ("date") = true)
    (hValue : hasCol rows ("value") = true)
    (hne : tsCleanRows rows ≠ [])
    (hnd : ((tsCleanRows rows).map Prod.fst).Nodup)
    (hArima : pyLower mRaw ≠ ("arima"))
    (hLr : pyLower mRaw ≠ ("simple_linear_regression")) :
    time_series_predict ⟨some rows, some hv, some (.str mRaw)⟩ =
      .error (.badRequest invalidModelMsg) := by
  have hproc : tsProc (tsCleanRows rows) =
      .ok (regrid (tsCleanRows rows) (tsFreq (tsCleanRows rows)), tsFreq (tsCleanRows rows)) := by
    unfold tsProc
    rw [if_pos hnd]
  unfold time_series_predict
  dsimp only
  rw [hInt]
  dsimp only
  rw [if_pos hDate, if_pos hValue, if_neg hne, hproc]
  dsimp only
  rw [if_neg hArima, if_neg hLr]

/-- C1 witness: the amended theorem applied to an 'ARMA' request on a
two-point daily series. -/
theorem C1_witness :
    time_series_predict
      ⟨some [[(("date"), .str ("2024-01-01")), (("value"), .num 1)],
             [(("date"), .str ("2024-01-02")), (("value"), .num 2)]],
        some (.num 1), some (.str ("ARMA"))⟩ = .error (.badRequest invalidModelMsg) :=
  C1_amended [[(("date"), .str ("2024-01-01")), (("value"), .num 1)],
              [(("date"), .str ("2024-01-02")), (("value"), .num 2)]]
    (.num 1) ("ARMA") 1 (by decide) (by decide) (by decide) (by decide) (by decide)
    (by decide) (by decide)

/-! ### C2 -/

/-- C2 counterexample: the time-series cleaner does not use
`parse_date_value` — for the numeric date 100 (a spreadsheet serial at or
below 25569, which the 4.1 coercer rejects), the endpoint's
`pd.to_datetime` coercion interprets it as 100 nanoseconds since the epoch,
keeps the row, and the whole request succeeds instead of dropping the row
and failing on an empty series. -/
theorem C2_counterexample :
    parse_date_value (.num 100) = .ok Option.none ∧
    tsCleanRows [[(("date"), .num 100), (("value"), .num 7)]] = [(100, 7)] ∧
    time_series_predict ⟨some [[(("date"), .num 100), (("value"), .num 7)]],
        some (.num 1), some (.str ("simple_linear_regression"))⟩ =
      .ok ⟨[(86400000000100, 7)], Option.none⟩ := by
  refine ⟨?_, ?_, ?_⟩ <;> decide

/-- C2 (amended): the series cleaner coerces dates with
`pd.to_datetime(errors='coerce')` — numeric dates are nanoseconds since the
epoch with no 25569 threshold (`parse_date_value` is never called) — and
values with the numeric coercer; a pair enters the cleaned series exactly
when some row passes both coercions, and the result is sorted ascending by
timestamp. -/
theorem C2_amended (t : Table) :
    List.Sorted tsLe (tsCleanRows t) ∧
    (∀ p : ℤ × ℚ, p ∈ tsCleanRows t ↔
      ∃ r ∈ t, toDatetime (rowGet r ("date")) = some p.1 ∧
        toNumeric (rowGet r ("value")) = some p.2) ∧
    (∀ n : ℤ, n.natAbs ≤ int64Max → toDatetime (.num ((n : ℤ) : ℚ)) = some n) := by
  refine ⟨List.sorted_insertionSort tsLe _, ?_, ?_⟩
  · intro p
    unfold tsCleanRows
    rw [List.Perm.mem_iff (List.perm_insertionSort tsLe _), List.mem_filterMap]
    constructor
    · rintro ⟨r, hr, hmatch⟩
      cases hd : toDatetime (rowGet r ("date")) with
      | none =>
        rw [hd] at hmatch
        exact absurd hmatch (by simp)
      | some d =>
        rw [hd] at hmatch
        cases hv : toNumeric (rowGet r ("value")) with
        | none =>
          rw [hv] at hmatch
          exact absurd hmatch (by simp)
        | some v =>
          rw [hv] at hmatch
          dsimp only at hmatch
          injection hmatch with hmatch
          subst hmatch
          exact ⟨r, hr, hd, hv⟩
    · rintro ⟨r, hr, hd, hv⟩
      exact ⟨r, hr, by rw [hd, hv]⟩
  · intro n hn
    unfold toDatetime
    dsimp only
    rw [Int.floor_intCast, if_pos hn]

/-- C2 witness: the amended theorem's numeric-date clause applied at the
serial 100 — kept as an epoch-nanosecond timestamp, not dropped. -/
theorem C2_witness :
    (100 : ℤ).natAbs ≤ int64Max ∧ toDatetime (.num ((100 : ℤ) : ℚ)) = some 100 :=
  ⟨by decide, (C2_amended []).2.2 100 (by decide)⟩

/-! ### C3 -/

/-- C3 counterexample: a series with exactly one usable point (fewer than
2) is not rejected with InsufficientData — the linear-trend branch returns
a forecast (with a null rmse). -/
theorem C3_counterexample :
    time_series_predict ⟨some [[(("date"), .str ("2024-01-02")), (("value"), .num 5)]],
        some (.num 1), some (.str ("simple_linear_regression"))⟩ =
      .ok ⟨[(1704240000000000000, 5)], Option.none⟩ := by
  decide

/-- C3 (amended): the no-valid-data 400 (the code's realisation of
InsufficientData) fires exactly when the cleaned series is empty — zero
usable points; a single-point series proceeds to the model branches. -/
theorem C3_amended (rows : Table) (hv : PyVal) (mRaw : String) (h : ℤ)
    (hInt : pyInt hv = .ok h)
    (hDate : hasCol rows ("date") = true)
    (hValue : hasCol rows ("value") = true) :
    tsCleanRows rows = [] ↔
      time_series_predict ⟨some rows, some hv, some (.str mRaw)⟩ =
        .error (.badRequest noValidMsg) := by
  constructor
  · intro hempty
    unfold time_series_predict
    dsimp only
    rw [hInt]
    dsimp only
    rw [if_pos hDate, if_pos hValue, if_pos hempty]
  · intro hres
    by_contra hne
    unfold time_series_predict at hres
    dsimp only at hres
    rw [hInt] at hres
    dsimp only at hres
    rw [if_pos hDate, if_pos hValue, if_neg hne] at hres
    revert hres
    cases hproc : tsProc (tsCleanRows rows) with
    | error e =>
      intro hres
      exact absurd hres (by simp)
    | ok pr =>
      intro hres
      dsimp only at hres
      by_cases h1 : pyLower mRaw = ("arima")
      · rw [if_pos h1] at hres
        exact arimaBranch_ne_badRequest _ _ _ _ hres
      · rw [if_neg h1] at hres
        by_cases h2 : pyLower mRaw = ("simple_linear_regression")
        · rw [if_pos h2] at hres
          exact lrBranch_ne_badRequest _ _ _ _ hres
        · rw [if_neg h2] at hres
          injection hres with hres
          injection hres with hres
          exact absurd hres (by decide)

/-- C3 witness: the amended theorem applied to a table whose one row fails
value coercion — the cleaned series is empty and the endpoint returns the
no-valid-data 400. -/
theorem C3_witness :
    time_series_predict ⟨some [[(("date"), .str ("2024-01-01")), (("value"), .str ("oops"))]],
        some (.num 1), some (.str ("arima"))⟩ = .error (.badRequest noValidMsg) :=
  (C3_amended [[(("date"), .str ("2024-01-01")), (("value"), .str ("oops"))]]
    (.num 1) ("arima") 1 (by decide) (by decide) (by decide)).mp (by decide)

/-! ### C7 -/

/-- C7 counterexample: on a series whose inferred frequency is 2 days, the
first forecast timestamp is the last historical timestamp plus ONE day
(432000000000000), not the continuation at the inferred frequency
(345600000000000 + 172800000000000 = 518400000000000) — the forecast does
not continue from the last historical timestamp using the series' inferred
frequency. -/
theorem C7_counterexample :
    time_series_predict
      ⟨some [[(("date"), .num 0), (("value"), .num 1)],
             [(("date"), .num 172800000000000), (("value"), .num 2)],
             [(("date"), .num 345600000000000), (("value"), .num 3)]],
        some (.num 1), some (.str ("simple_linear_regression"))⟩ =
      .ok ⟨[(432000000000000, 4)], some (RVal.sqrtOf 0)⟩ ∧
    tsFreq (tsCleanRows [[(("date"), .num 0), (("value"), .num 1)],
             [(("date"), .num 172800000000000), (("value"), .num 2)],
             [(("date"), .num 345600000000000), (("value"), .num 3)]]) = 172800000000000 ∧
    (432000000000000 : ℤ) ≠ 345600000000000 + 172800000000000 := by
  refine ⟨?_, ?_, ?_⟩ <;> decide

/-- C7 (amended): every successful forecast returns exactly `h` points with
strictly increasing timestamps, spaced by the index frequency but starting
at the last historical timestamp plus one day (which coincides with
continuing at the inferred frequency only for daily series). -/
theorem C7_amended (rows : Table) (hv : PyVal) (mRaw : String) (h : ℤ) (resp : TsResp)
    (hInt : pyInt hv = .ok h)
    (hres : time_series_predict ⟨some rows, some hv, some (.str mRaw)⟩ = .ok resp) :
    resp.predictions.length = h.toNat ∧
      List.Pairwise (· < ·) (resp.predictions.map Prod.fst) := by
  obtain ⟨pr, hpr, hbranch⟩ := ts_ok_cases hInt hres
  have hprv := tsProc_ok hpr
  have hfpos : 0 < pr.2 := by rw [hprv]; exact tsFreq_pos _
  obtain ⟨vals, hlen, hpred⟩ := hbranch.elim arimaBranch_ok lrBranch_ok
  constructor
  · rw [hpred, List.length_zip, futureDates_length, hlen, Nat.min_self]
  · rw [hpred, List.map_fst_zip _ _ (by simp [futureDates_length, hlen])]
    exact futureDates_pairwise _ hfpos _

/-- C7 witness: the amended theorem applied to a daily two-point series
with horizon 1. -/
theorem C7_witness :
    (TsResp.mk [(1704240000000000000, 3)] (some (RVal.sqrtOf 0))).predictions.length =
      (1 : ℤ).toNat ∧
    List.Pairwise (· < ·)
      ((TsResp.mk [(1704240000000000000, 3)] (some (RVal.sqrtOf 0))).predictions.map Prod.fst) :=
  C7_amended [[(("date"), .str ("2024-01-01")), (("value"), .num 1)],
              [(("date"), .str ("2024-01-02")), (("value"), .num 2)]]
    (.num 1) ("simple_linear_regression") 1 (TsResp.mk [(1704240000000000000, 3)] (some (RVal.sqrtOf 0)))
    (by decide) (by decide)

/-! ### C8 -/

/-- C8 counterexample: a required column absent from every row does not
produce a typed MissingColumn failure — the per-column coercion loop raises
`KeyError`, which the blanket handler returns as a generic 500, in both the
correlation and the regression endpoint. -/
theorem C8_counterexample :
    calculate_correlation ⟨some [[(("a"), .num 1)]], some [("a"), ("b")]⟩ =
      .error (.internal ("Correlation calculation failed: 'b'")) ∧
    run_linear_regression ⟨some [[(("a"), .num 1)]], some ("y"), some [("a")]⟩ =
      .error (.internal ("Linear Regression failed: 'y'")) := by
  constructor <;> decide

/-- C8 (amended): when some required column is absent from every row, the
correlation endpoint fails — but with the generic 500 carrying the
`KeyError` of the first missing column in list order, not with a typed
MissingColumn error. -/
theorem C8_amended (t : Table) (cols : List String) (c : String)
    (hc : c ∈ cols) (habs : hasCol t c = false) :
    ∃ cm, cm ∈ cols ∧
      calculate_correlation ⟨some t, some cols⟩ =
        .error (.internal ("Correlation calculation failed: " ++ PyExn.text (.keyError cm))) := by
  have hmc : ∃ cm, missingCol t cols = some cm := by
    cases hm : missingCol t cols with
    | some cm => exact ⟨cm, rfl⟩
    | none =>
      exfalso
      have hx := List.find?_eq_none.mp hm c hc
      rw [habs] at hx
      exact hx rfl
  obtain ⟨cm, hcm⟩ := hmc
  refine ⟨cm, List.mem_of_find?_eq_some hcm, ?_⟩
  unfold calculate_correlation
  dsimp only
  unfold clean
  rw [hcm]

/-- C8 witness: the amended theorem applied to a one-row table lacking the
requested column 'b'. -/
theorem C8_witness :
    ∃ cm, cm ∈ [("a"), ("b")] ∧
      calculate_correlation ⟨some [[(("a"), .num 1)]], some [("a"), ("b")]⟩ =
        .error (.internal ("Correlation calculation failed: " ++ PyExn.text (.keyError cm))) :=
  C8_amended [[(("a"), .num 1)]] [("a"), ("b")] ("b") (by decide) (by decide)

/-! ### C6 -/

theorem lookup_map_self {β : Type} (g : String → β) (a : String) (cols : List String) :
    (cols.map (fun c => (c, g c))).lookup a = if a ∈ cols then some (g a) else Option.none := by
  induction cols with
  | nil => simp
  | cons c cs ih =>
    by_cases hac : a = c
    · subst hac
      simp [List.lookup]
    · simp [List.lookup, hac, ih]
      rw [show (a == c) = false from beq_eq_false_iff_ne.mpr hac]

theorem corrLookup_matrix (cols : List String) (rows : List (List ℚ)) (a b : String) :
    corrLookup (corrMatrix cols rows) a b =
      if a ∈ cols then
        (if b ∈ cols then some (corrCell (colData rows cols a) (colData rows cols b))
         else Option.none)
      else Option.none := by
  unfold corrLookup corrMatrix
  rw [lookup_map_self
    (fun c => cols.map (fun d => (d, corrCell (colData rows cols c) (colData rows cols d)))) a cols]
  by_cases ha : a ∈ cols
  · rw [if_pos ha, if_pos ha, Option.some_bind]
    rw [lookup_map_self (fun d => corrCell (colData rows cols a) (colData rows cols d)) b cols]
  · rw [if_neg ha, if_neg ha]
    rfl

theorem sxy_comm (xs ys : List ℚ) : sxy xs ys = sxy ys xs := by
  unfold sxy
  rw [List.zipWith_comm_of_comm (· * ·) mul_comm (devs xs) (devs ys)]

theorem corrCell_comm (xs ys : List ℚ) : corrCell xs ys = corrCell ys xs := by
  unfold corrCell
  rw [sxy_comm xs ys, mul_comm (sxx xs) (sxx ys)]

theorem qsum_sq_nonneg (l : List ℚ) : 0 ≤ qsum (l.map (fun d => d * d)) := by
  induction l with
  | nil => simp [qsum]
  | cons x xs ih =>
    simp only [List.map_cons, qsum, List.foldr_cons]
    exact add_nonneg (mul_self_nonneg x) ih

theorem sxx_nonneg (xs : List ℚ) : 0 ≤ sxx xs := by
  unfold sxx sxy
  rw [List.zipWith_same]
  exact qsum_sq_nonneg (devs xs)

/-- C6 counterexample: the one-row two-column table is accepted by the
correlation endpoint (its gate only checks emptiness and the column count),
but on it every column has zero variance, so the matrix — diagonal
included — is NaN, not 1.0. -/
theorem C6_counterexample :
    calculate_correlation ⟨some [[(("a"), .num 1), (("b"), .num 2)]], some [("a"), ("b")]⟩ =
      .ok [(("a"), [(("a"), CorrCell.nan), (("b"), CorrCell.nan)]),
           (("b"), [(("a"), CorrCell.nan), (("b"), CorrCell.nan)])] ∧
    corrLookup [(("a"), [(("a"), CorrCell.nan), (("b"), CorrCell.nan)]),
                (("b"), [(("a"), CorrCell.nan), (("b"), CorrCell.nan)])] ("a") ("a") =
      some CorrCell.nan := by
  constructor <;> decide

/-- C6 (amended): the returned correlation matrix is symmetric, a diagonal
cell is exactly 1.0 whenever its column has nonzero variance, and a
zero-variance column yields NaN cells — its whole row and column, diagonal
included — rather than a crash. -/
theorem C6_amended (t : Table) (cols : List String) (rows : List (List ℚ))
    (M : List (String × List (String × CorrCell)))
    (hclean : clean t cols = .ok rows)
    (hres : calculate_correlation ⟨some t, some cols⟩ = .ok M) :
    (∀ a b : String, corrLookup M a b = corrLookup M b a) ∧
    (∀ a ∈ cols, sxx (colData rows cols a) ≠ 0 →
      ∃ cc, corrLookup M a a = some cc ∧ cc.isOne) ∧
    (∀ a ∈ cols, sxx (colData rows cols a) = 0 →
      ∀ b ∈ cols, corrLookup M a b = some CorrCell.nan ∧
        corrLookup M b a = some CorrCell.nan) := by
  unfold calculate_correlation at hres
  dsimp only at hres
  rw [hclean] at hres
  dsimp only at hres
  split at hres
  · exact absurd hres (by simp)
  · injection hres with hres
    subst hres
    refine ⟨?_, ?_, ?_⟩
    · intro a b
      rw [corrLookup_matrix, corrLookup_matrix]
      by_cases ha : a ∈ cols <;> by_cases hb : b ∈ cols <;>
        simp [ha, hb, corrCell_comm]
    · intro a ha hvar
      rw [corrLookup_matrix, if_pos ha, if_pos ha]
      refine ⟨_, rfl, ?_⟩
      unfold corrCell
      rw [if_neg (mul_ne_zero hvar hvar)]
      exact ⟨lt_of_le_of_ne (sxx_nonneg _) (Ne.symm hvar), rfl⟩
    · intro a ha hvar b hb
      constructor
      · rw [corrLookup_matrix, if_pos ha, if_pos hb]
        unfold corrCell
        rw [if_pos (by rw [hvar, zero_mul])]
      · rw [corrLookup_matrix, if_pos hb, if_pos ha]
        unfold corrCell
        rw [if_pos (by rw [hvar, mul_zero])]

/-- C6 witness: the amended theorem's diagonal clause at a two-row table
whose column 'a' has nonzero variance — the diagonal cell denotes exactly
1.0. -/
theorem C6_witness :
    ∃ cc, corrLookup (corrMatrix [("a"), ("b")] [[1, 2], [2, 5]]) ("a") ("a") = some cc ∧
      cc.isOne :=
  (C6_amended [[(("a"), .num 1), (("b"), .num 2)], [(("a"), .num 2), (("b"), .num 5)]]
      [("a"), ("b")] [[1, 2], [2, 5]] (corrMatrix [("a"), ("b")] [[1, 2], [2, 5]])
      (by decide) (by decide)).2.1 ("a") (by decide) (by decide)

/-! ### C10 -/

/-- C10: in both forecasting branches the future index is generated from
the start parameter `last historical timestamp + exactly one day`,
independent of the frequency argument; consequently, for every successful
forecast over a series whose index frequency is daily, the first forecast
timestamp equals the last historical timestamp plus one day. -/
theorem C10_theorem :
    (∀ (L f : ℤ) (hh : ℕ), 0 < hh → (futureDates L f hh).head? = some (L + nsDay)) ∧
    (∀ (rows : Table) (hv : PyVal) (mRaw : String) (h : ℤ) (resp : TsResp),
      pyInt hv = .ok h →
      time_series_predict ⟨some rows, some hv, some (.str mRaw)⟩ = .ok resp →
      tsFreq (tsCleanRows rows) = nsDay → 0 < h →
      (resp.predictions.map Prod.fst).head? =
        some (lastTs (regrid (tsCleanRows rows) nsDay) + nsDay)) := by
  constructor
  · intro L f hh hpos
    exact futureDates_head L f hpos
  · intro rows hv mRaw h resp hInt hres hfreq hpos
    obtain ⟨pr, hpr, hbranch⟩ := ts_ok_cases hInt hres
    have hprv := tsProc_ok hpr
    obtain ⟨vals, hlen, hpred⟩ := hbranch.elim arimaBranch_ok lrBranch_ok
    rw [hpred, List.map_fst_zip _ _ (by simp [futureDates_length, hlen])]
    rw [hprv]
    dsimp only
    rw [hfreq]
    exact futureDates_head _ _ (by omega)

/-- C10 witness: the theorem applied to a daily two-point series with
horizon 1 — the forecast starts one day after 2024-01-02. -/
theorem C10_witness :
    ((TsResp.mk [(1704240000000000000, 3)] (some (RVal.sqrtOf 0))).predictions.map Prod.fst).head? =
      some (lastTs (regrid (tsCleanRows [[(("date"), .str ("2024-01-01")), (("value"), .num 1)],
              [(("date"), .str ("2024-01-02")), (("value"), .num 2)]]) nsDay) + nsDay) :=
  C10_theorem.2 [[(("date"), .str ("2024-01-01")), (("value"), .num 1)],
                 [(("date"), .str ("2024-01-02")), (("value"), .num 2)]]
    (.num 1) ("simple_linear_regression") 1
    (TsResp.mk [(1704240000000000000, 3)] (some (RVal.sqrtOf 0)))
    (by decide) (by decide) (by decide) (by decide)

end CSVA
